import Mathlib

/-!
Shallow embedding of the embedded NATS broker process supervisor from
`nodes/nats-suite-server-manager.js` (node-red-contrib-nats-suite).

The JavaScript source is modelled as follows:
* the per-node configuration fields (constructor lines 13-55) become the
  `InstanceConfig` structure, with the same `x || default` defaults;
* the module-scoped mutable variables (`natsServerProcess`, `serverPort`,
  `natsServerVersion`, `configFile`) become the `RuntimeState` structure;
* the filesystem is a list of existing paths; `fs.existsSync` is membership,
  `fs.unlinkSync` removes the path, `fs.writeFileSync` appends it;
* side effects (warnings, status updates, spawns, file writes, event
  emissions) are recorded in an explicit `Effect` trace;
* `Date.now()` is an explicit `now : Nat` parameter, the probed version and
  the spawned pid are oracle parameters, as their values come from outside.

Machine arithmetic: all numbers involved are small non-negative integers
(ports, byte counts); JavaScript numbers behave as exact naturals on them.
-/

namespace NatsSuite

/-- Configuration fields of the server-manager node, with the defaults
applied by the constructor (`config.x || default`, lines 13-55). -/
structure InstanceConfig where
  port : Nat := 4222
  leafPort : Nat := 7422
  enableJetStream : Bool := false
  storeDir : String := "/tmp/nats-jetstream"
  leafRemoteUrl : String := ""
  leafRemoteUser : String := ""
  leafRemotePass : String := ""
  autoStart : Bool := true
  binarySource : String := "auto"
  customBinaryPath : String := ""
  enableMqtt : Bool := false
  mqttPort : Nat := 1883
  serverName : String := ""
  maxConnections : String := ""
  maxPayload : String := ""
  maxSubscriptions : String := ""
  maxControlLine : String := ""
  writeDeadline : String := ""
  httpPort : String := ""
  httpsPort : String := ""
  logLevel : String := "info"
  enableTrace : Bool := false
  enableDebugLog : Bool := false
  noLog : Bool := false
  logFile : String := ""
  pidFile : String := ""
  maxMemoryStore : String := ""
  memStoreOnly : Bool := false
  syncInterval : String := ""
  hostAddr : String := ""
  clientAdvertise : String := ""
  noAdvertise : Bool := false
  connectRetries : String := ""
  enableLeafNodeMode : Bool := false
deriving Repr, DecidableEq

/-- Module-scoped mutable state of one supervisor instance (lines 57-60). -/
structure RuntimeState where
  natsServerProcess : Option Nat := none
  serverPort : Option Nat := none
  natsServerVersion : Option String := none
  configFile : Option String := none
deriving Repr, DecidableEq

/-- Errors thrown by `startEmbeddedServer` before the server process is
spawned (lines 148-216). -/
inductive StartError where
  | leafNoUrl
  | customNoPath
  | customNotFound (p : String)
  | binaryNotFound (hint : String)
deriving Repr, DecidableEq

/-- Observable side effects of the supervisor, in program order. -/
inductive Effect where
  | warnE (msg : String)
  | errorE (msg : String)
  | statusE (kind : String) (text : String)
  | probeVersion (bin : String)
  | writeFile (p : String) (lines : List String)
  | unlinkFile (p : String)
  | spawnServer (bin : String) (args : List String)
  | killProcess
  | emitStopped (ty : Option String)
  | emitStatus (running : Bool) (port : Option Nat) (version : Option String)
  | delayMs (n : Nat)
deriving Repr, DecidableEq

/-- Effects that spawn an OS process: the version probe (line 124) and the
server spawn itself (line 430). -/
def Effect.isSpawn : Effect → Bool
  | .probeVersion _ => true
  | .spawnServer _ _ => true
  | _ => false

/-- Requested client port: `parseInt(node.port) || 4222` (line 143). -/
def requestedPort (cfg : InstanceConfig) : Nat :=
  if cfg.port = 0 then 4222 else cfg.port

/-- Leaf port with fallback: `parseInt(node.leafPort) || 7422` (line 249). -/
def leafPortD (cfg : InstanceConfig) : Nat :=
  if cfg.leafPort = 0 then 7422 else cfg.leafPort

/-- MQTT port with fallback: `parseInt(node.mqttPort) || 1883` (line 277). -/
def mqttPortD (cfg : InstanceConfig) : Nat :=
  if cfg.mqttPort = 0 then 1883 else cfg.mqttPort

/-- Value of a list of decimal digit characters. -/
def digitsVal (ds : List Char) : Nat :=
  ds.foldl (fun a c => a * 10 + (c.toNat - 48)) 0

/-- Model of `parseInt` on the numeric option strings.  Only the plain
digits-prefix behaviour is modelled; no claim exercises non-numeric input
(where JavaScript would yield NaN). -/
def jsParseIntD (s : String) : Nat :=
  digitsVal (s.data.takeWhile Char.isDigit)

/-- Size parsing of `maxMemoryStore` by the regex
`^(\d+)(GB|MB|KB|B)?$` (case-insensitive) with unit conversion to bytes
(lines 293-301 and 409-417). -/
def parseSize (s : String) : Option Nat :=
  let ds := s.data.takeWhile Char.isDigit
  let rest := (s.data.dropWhile Char.isDigit).map Char.toUpper
  if ds = [] then none
  else if rest = [] ∨ rest = ['B'] then some (digitsVal ds)
  else if rest = ['K', 'B'] then some (digitsVal ds * 1024)
  else if rest = ['M', 'B'] then some (digitsVal ds * 1024 * 1024)
  else if rest = ['G', 'B'] then some (digitsVal ds * 1024 * 1024 * 1024)
  else none

/-- Remediation hint attached to the auto-detection failure (line 212). -/
def installHint : String :=
  "Install nats-memory-server (npm install nats-memory-server) or select \"Custom Binary\" and mount your own."

/-- Ordered list of candidate binary locations tried by the `auto` policy
(lines 190-197).  The two `__dirname`-relative entries are modelled as the
literal joined paths; the final entry is the bare system command name. -/
def possibleBinPaths : List String :=
  ["__dirname/../node_modules/.cache/nats-memory-server/nats-server",
   "__dirname/../node_modules/nats-memory-server/.cache/nats-server",
   "/data/node_modules/node-red-contrib-nats-suite/node_modules/.cache/nats-memory-server/nats-server",
   "/usr/local/bin/nats-server",
   "/usr/bin/nats-server",
   "nats-server"]

/-- The `for ... break` scan of the candidate list (lines 199-209): the
first entry that is the bare name `nats-server` or exists on disk wins. -/
def autoScan (fs : List String) : List String → Option String
  | [] => none
  | p :: rest =>
    if p == "nats-server" || fs.contains p then some p else autoScan fs rest

/-- Resolution under the `auto` policy (lines 187-217): scan the candidate
list; if nothing was selected, fail with the remediation hint. -/
def resolveAuto (fs : List String) : Except StartError String :=
  match autoScan fs possibleBinPaths with
  | some p => Except.ok p
  | none => Except.error (StartError.binaryNotFound installHint)

/-- Full binary resolution switch on `binarySource` (lines 164-218).
Unrecognised values share the `auto` branch (`case 'auto': default:`). -/
def resolveBinary (cfg : InstanceConfig) (fs : List String) :
    Except StartError String :=
  match cfg.binarySource with
  | "custom" =>
    if cfg.customBinaryPath = "" then Except.error StartError.customNoPath
    else if fs.contains cfg.customBinaryPath then Except.ok cfg.customBinaryPath
    else Except.error (StartError.customNotFound cfg.customBinaryPath)
  | "system" => Except.ok "nats-server"
  | _ => resolveAuto fs

/-- Runtime shape of the JavaScript values placed into `serverConfig`
(string, number, boolean, null, plain object, array), as branched on by
`writeValue` (lines 83-112). -/
inductive JSVal where
  | str (s : String)
  | num (n : Nat)
  | bool (b : Bool)
  | null
  | obj (fields : List (String × JSVal))
  | arr (items : List JSVal)
deriving Repr

/-- Rendering of non-object array items via `JSON.stringify` (line 101).
Only scalars reach this in the generated configurations. -/
def jsonStringify : JSVal → String
  | .str s => "\"" ++ s ++ "\""
  | .num n => toString n
  | .bool b => if b then "true" else "false"
  | .null => "null"
  | .obj _ => ""
  | .arr _ => ""

/-- Indentation string: `'  '.repeat(indent)` (line 84). -/
def spacesRep (indent : Nat) : String :=
  String.mk (List.replicate (2 * indent) ' ')

mutual

/-- The recursive serializer `writeValue` (lines 83-112), producing the
emitted text as a list of lines.  Objects render as `key \x7b ... \x7d`
blocks, arrays as `key: [ ... ]` lists whose object items become anonymous
nested blocks, scalars as `key: value` lines (strings quoted), and null
values produce no output at all (none of the type branches match null). -/
def writeValue (key : String) (indent : Nat) : JSVal → List String
  | .obj fields =>
    (spacesRep indent ++ key ++ " \x7b") ::
      (writeFields (indent + 1) fields ++ [spacesRep indent ++ "\x7d"])
  | .arr items =>
    (spacesRep indent ++ key ++ ": [") ::
      (writeItems indent items ++ [spacesRep indent ++ "]"])
  | .str s => [spacesRep indent ++ key ++ ": \"" ++ s ++ "\""]
  | .bool b => [spacesRep indent ++ key ++ ": " ++ (if b then "true" else "false")]
  | .num n => [spacesRep indent ++ key ++ ": " ++ toString n]
  | .null => []

/-- Iteration of `writeValue` over the entries of an object
(lines 87-89). -/
def writeFields (indent : Nat) : List (String × JSVal) → List String
  | [] => []
  | (k, v) :: rest => writeValue k indent v ++ writeFields indent rest

/-- Iteration over array items (lines 93-103): object items render as
anonymous blocks with their entries two levels deeper, other items are
stringified on one line. -/
def writeItems (indent : Nat) : List JSVal → List String
  | [] => []
  | .obj fields :: rest =>
    (spacesRep indent ++ "  \x7b") ::
      (writeFields (indent + 2) fields ++
        ((spacesRep indent ++ "  \x7d") :: writeItems indent rest))
  | item :: rest =>
    (spacesRep indent ++ "  " ++ jsonStringify item) :: writeItems indent rest

end

/-- The generated file content (lines 79-119): a two-line header comment
with the generation timestamp, a blank line, then the serialized entries of
the top-level config object. -/
def generateNatsConfig (config : List (String × JSVal)) (now : Nat) :
    List String :=
  "# Auto-generated NATS Server Configuration" ::
    ("# Generated at: " ++ toString now) :: "" :: writeFields 0 config

/-- The single leaf-node remote descriptor (lines 255-259): the URL (with
the unreachable `|| 'nats://localhost:4222'` fallback), then — via the JS
conditional-spread idiom — a null `credentials` entry together with the
user when a username is configured, and the password when one is
configured. -/
def leafRemoteObj (url user pass : String) : JSVal :=
  JSVal.obj
    ([("url", JSVal.str (if url = "" then "nats://localhost:4222" else url))]
      ++ (if user = "" then [] else
            [("credentials", JSVal.null), ("user", JSVal.str user)])
      ++ (if pass = "" then [] else [("password", JSVal.str pass)]))

/-- The `leafnodes` block with its single-entry `remotes` list
(lines 254-260). -/
def leafnodesVal (url user pass : String) : JSVal :=
  JSVal.obj [("remotes", JSVal.arr [leafRemoteObj url user pass])]

/-- The `jetstream` block contents (lines 288-302). -/
def jetstreamFields (cfg : InstanceConfig) : List (String × JSVal) :=
  (if cfg.storeDir = "" then [] else [("store_dir", JSVal.str cfg.storeDir)])
    ++ (match parseSize cfg.maxMemoryStore with
        | some b => [("max_memory_store", JSVal.num b)]
        | none => [])

/-- The top-level `serverConfig` object built in file mode (lines 246-324),
with entries in insertion order. -/
def buildServerConfig (cfg : InstanceConfig) : List (String × JSVal) :=
  (if cfg.enableLeafNodeMode then
     [("port", JSVal.num (leafPortD cfg)),
      ("leafnodes",
        leafnodesVal cfg.leafRemoteUrl cfg.leafRemoteUser cfg.leafRemotePass)]
   else [("port", JSVal.num (requestedPort cfg))])
    ++ (if cfg.serverName = "" then [] else
          [("server_name", JSVal.str cfg.serverName)])
    ++ (if cfg.hostAddr = "" then [] else [("host", JSVal.str cfg.hostAddr)])
    ++ (if cfg.enableMqtt then
          [("mqtt", JSVal.obj [("port", JSVal.num (mqttPortD cfg))])]
        else [])
    ++ (if cfg.enableJetStream || cfg.enableMqtt then
          [("jetstream", JSVal.obj (jetstreamFields cfg))]
        else [])
    ++ (if cfg.httpPort = "" then [] else
          [("http_port", JSVal.num (jsParseIntD cfg.httpPort))])
    ++ (if cfg.enableDebugLog || cfg.logLevel == "debug" then
          [("debug", JSVal.bool true)]
        else [])
    ++ (if cfg.enableTrace || cfg.logLevel == "trace" then
          [("trace", JSVal.bool true)]
        else [])
    ++ (if cfg.maxConnections = "" then [] else
          [("max_connections", JSVal.num (jsParseIntD cfg.maxConnections))])
    ++ (if cfg.maxPayload = "" then [] else
          [("max_payload", JSVal.num (jsParseIntD cfg.maxPayload))])

/-- The flat argument list built in argument mode (lines 335-422), one
flag (and raw value) per configured option, in program order. -/
def buildArgs (cfg : InstanceConfig) : List String :=
  ["-p", toString (requestedPort cfg)]
    ++ (if cfg.hostAddr = "" then [] else ["-a", cfg.hostAddr])
    ++ (if cfg.serverName = "" then [] else ["-n", cfg.serverName])
    ++ (if cfg.clientAdvertise = "" then [] else
          ["--client_advertise", cfg.clientAdvertise])
    ++ (if cfg.noAdvertise then ["--no_advertise"] else [])
    ++ (if cfg.maxConnections = "" then [] else
          ["--max_connections", cfg.maxConnections])
    ++ (if cfg.maxPayload = "" then [] else ["--max_payload", cfg.maxPayload])
    ++ (if cfg.maxSubscriptions = "" then [] else
          ["--max_subscriptions", cfg.maxSubscriptions])
    ++ (if cfg.maxControlLine = "" then [] else
          ["--max_control_line", cfg.maxControlLine])
    ++ (if cfg.writeDeadline = "" then [] else
          ["--write_deadline", cfg.writeDeadline])
    ++ (if cfg.connectRetries = "" then [] else
          ["--connect_retries", cfg.connectRetries])
    ++ (if cfg.httpPort = "" then [] else ["-m", cfg.httpPort])
    ++ (if cfg.httpsPort = "" then [] else ["-ms", cfg.httpsPort])
    ++ (if cfg.noLog then ["-l", "/dev/null"]
        else
          (if cfg.logFile = "" then [] else ["-l", cfg.logFile])
            ++ (if cfg.enableDebugLog || cfg.logLevel == "debug" then ["-D"]
                else [])
            ++ (if cfg.enableTrace || cfg.logLevel == "trace" then ["-V"]
                else []))
    ++ (if cfg.pidFile = "" then [] else ["-P", cfg.pidFile])
    ++ (if cfg.enableJetStream then
          "-js" ::
            ((if cfg.memStoreOnly then ["--js_mem_store_only"]
              else if cfg.storeDir = "" then [] else ["-sd", cfg.storeDir])
              ++ (match parseSize cfg.maxMemoryStore with
                  | some b => ["--js_max_memory_store", toString b]
                  | none => [])
              ++ (if cfg.syncInterval = "" then [] else
                    ["--sync_interval", cfg.syncInterval]))
        else [])

/-- Decision between invocation styles: a config file is needed exactly
when leaf-node mode or MQTT is enabled (line 242). -/
def needsConfigFile (cfg : InstanceConfig) : Bool :=
  cfg.enableLeafNodeMode || cfg.enableMqtt

/-- Result of compiling the invocation: the spawn argument list, the
generated file (path and lines) in file mode, and the resolved listening
port recorded on readiness. -/
structure CompileOut where
  args : List String
  fileOut : Option (String × List String)
  actualPort : Nat
deriving Repr, DecidableEq

/-- The configuration compiler (lines 239-423): in file mode, write the
serialized `serverConfig` to a timestamped temp path and pass `-c <path>`;
in argument mode, build the flat argument list and write nothing. -/
def compileInvocation (cfg : InstanceConfig) (now : Nat) : CompileOut :=
  if needsConfigFile cfg then
    let configFile := "/tmp/nats-embedded-" ++ toString now ++ ".conf"
    { args := ["-c", configFile],
      fileOut := some (configFile, generateNatsConfig (buildServerConfig cfg) now),
      actualPort := if cfg.enableLeafNodeMode then leafPortD cfg
                    else requestedPort cfg }
  else
    { args := buildArgs cfg, fileOut := none, actualPort := requestedPort cfg }

/-- Model of `fs.unlinkSync`: the path no longer exists afterwards.  The
code wraps every call in try/catch and downgrades a failure to a warning;
the model takes the successful-deletion branch. -/
def unlink (fs : List String) (p : String) : List String :=
  fs.filter (fun q => q ≠ p)

/-- Combined outcome of one supervisor step: the (possibly updated) node
configuration, runtime state, filesystem, effect trace, and the error
thrown by `startEmbeddedServer`, if any. -/
structure StepOut where
  cfg : InstanceConfig
  state : RuntimeState
  fs : List String
  effects : List Effect
  err : Option StartError := none
deriving Repr, DecidableEq

/-- The `startEmbeddedServer` pipeline up to and including the spawn call
(lines 141-433): validate the leaf configuration, resolve the binary,
probe its version, auto-generate a server name when MQTT demands one,
compile the invocation, write the config file in file mode, and spawn.
`now` models `Date.now()`; `pv` is the version string the probe returns;
`pid` is the pid of the spawned process. -/
def startEmbeddedServer (cfg : InstanceConfig) (s : RuntimeState)
    (fs : List String) (now : Nat) (pv : String) (pid : Nat) : StepOut :=
  if cfg.enableLeafNodeMode && cfg.leafRemoteUrl == "" then
    { cfg, state := s, fs,
      effects := [Effect.errorE "Leaf Node mode requires a Remote NATS Server URL",
                  Effect.statusE "error" "missing remote URL"],
      err := some StartError.leafNoUrl }
  else
    match resolveBinary cfg fs with
    | Except.error e =>
      { cfg, state := s, fs,
        effects := [Effect.errorE "binary resolution failed",
                    Effect.statusE "error" "binary not found"],
        err := some e }
    | Except.ok bin =>
      let warnJs :=
        if cfg.enableMqtt && !cfg.enableJetStream then
          [Effect.warnE "MQTT requires JetStream - enabling JetStream automatically"]
        else []
      let cfg' :=
        if cfg.enableMqtt && cfg.serverName == "" then
          { cfg with serverName := "nats-embedded-" ++ toString now }
        else cfg
      let out := compileInvocation cfg' now
      let fs' := match out.fileOut with
        | some (p, _) => fs ++ [p]
        | none => fs
      let weff := match out.fileOut with
        | some (p, lines) => [Effect.writeFile p lines]
        | none => []
      { cfg := cfg',
        state := { s with
          natsServerProcess := some pid,
          natsServerVersion := some pv,
          configFile := match out.fileOut with
            | some (p, _) => some p
            | none => s.configFile },
        fs := fs',
        effects := Effect.probeVersion bin :: warnJs ++ weff
          ++ [Effect.statusE "starting" "", Effect.spawnServer bin out.args] }

/-- The `startServer` wrapper (lines 606-613): on error it reports to the
error channel and sets an error status, leaving state as the failed start
left it. -/
def startServer (cfg : InstanceConfig) (s : RuntimeState) (fs : List String)
    (now : Nat) (pv : String) (pid : Nat) : StepOut :=
  let o := startEmbeddedServer cfg s fs now pv pid
  match o.err with
  | some _ =>
    { o with effects := o.effects ++ [Effect.errorE "Error while starting",
                                      Effect.statusE "error" ""] }
  | none => o

/-- The `stopServer` routine (lines 576-603): delete (and forget) the
config file if present, kill the process if present, clear the port, and
unconditionally emit a `server.stopped` event whose payload type reads the
never-assigned `node.serverType` — i.e. undefined, modelled as `none`. -/
def stopServer (cfg : InstanceConfig) (s : RuntimeState) (fs : List String) :
    StepOut :=
  let fs1 := match s.configFile with
    | some p => unlink fs p
    | none => fs
  let e1 := match s.configFile with
    | some p => [Effect.unlinkFile p]
    | none => []
  let e2 := match s.natsServerProcess with
    | some _ => [Effect.killProcess]
    | none => []
  { cfg,
    state := { natsServerProcess := none, serverPort := none,
               natsServerVersion := s.natsServerVersion, configFile := none },
    fs := fs1,
    effects := Effect.statusE "stopped" "stopping..." :: e1 ++ e2
      ++ [Effect.statusE "stopped" "", Effect.emitStopped none] }

/-- The handler of the `exit` event of the spawned process
(lines 517-544): report depending on whether readiness had been observed,
attempt to delete the config file (without forgetting its path), and clear
the process handle and port. -/
def onProcessExit (started : Bool) (s : RuntimeState) (fs : List String) :
    RuntimeState × List String × List Effect :=
  let fs1 := match s.configFile with
    | some p => unlink fs p
    | none => fs
  let e1 := match s.configFile with
    | some p => [Effect.unlinkFile p]
    | none => []
  let head :=
    if started then [Effect.statusE "stopped" "stopped"]
    else [Effect.errorE "Embedded NATS server exited before starting",
          Effect.statusE "error" "exit"]
  ({ s with natsServerProcess := none, serverPort := none }, fs1, head ++ e1)

/-- The 10-second startup-timeout handler (lines 547-565): when readiness
has not been observed, report, kill the process if still present, and
attempt to delete the config file; once readiness has fired it does
nothing. -/
def onStartupTimeout (started : Bool) (s : RuntimeState) (fs : List String) :
    RuntimeState × List String × List Effect :=
  if started then (s, fs, [])
  else
    let kill := match s.natsServerProcess with
      | some _ => [Effect.killProcess]
      | none => []
    let fs1 := match s.configFile with
      | some p => unlink fs p
      | none => fs
    let e1 := match s.configFile with
      | some p => [Effect.unlinkFile p]
      | none => []
    ({ s with natsServerProcess := none }, fs1,
      Effect.errorE "Embedded NATS server start timeout"
        :: Effect.statusE "error" "start timeout" :: kill ++ e1)

/-- Commands accepted on the input channel (lines 624-665). -/
inductive Command where
  | start
  | stop
  | restart
  | status
  | toggle
deriving Repr, DecidableEq

/-- The input-handler dispatch (lines 616-666).  `start` is guarded by the
presence of a process handle; `stop` by its absence; `restart` stops
unconditionally and then starts after a 1-second delay; `status` is a pure
query; `toggle` picks stop or start by handle presence. -/
def handleCommand (c : Command) (cfg : InstanceConfig) (s : RuntimeState)
    (fs : List String) (now : Nat) (pv : String) (pid : Nat) : StepOut :=
  match c with
  | Command.start =>
    if s.natsServerProcess.isSome then
      { cfg, state := s, fs, effects := [Effect.warnE "Server is already running"] }
    else startServer cfg s fs now pv pid
  | Command.stop =>
    if s.natsServerProcess.isSome then stopServer cfg s fs
    else { cfg, state := s, fs, effects := [Effect.warnE "Server is not running"] }
  | Command.restart =>
    let o1 := stopServer cfg s fs
    let o2 := startServer o1.cfg o1.state o1.fs now pv pid
    { o2 with effects := o1.effects ++ Effect.delayMs 1000 :: o2.effects }
  | Command.status =>
    { cfg, state := s, fs,
      effects := [Effect.emitStatus s.natsServerProcess.isSome s.serverPort
                    s.natsServerVersion] }
  | Command.toggle =>
    if s.natsServerProcess.isSome then stopServer cfg s fs
    else startServer cfg s fs now pv pid

/-- First readiness phrase scanned for in the process output (line 441). -/
def readyPhrase1 : List Char := "Server is ready".data

/-- Second readiness phrase scanned for in the process output
(line 441). -/
def readyPhrase2 : List Char := "Listening for client connections".data

/-- Substring test modelling JavaScript `String.prototype.includes`:
true when `needle` occurs contiguously inside the haystack. -/
def hasSub (needle : List Char) : List Char → Bool
  | [] => needle.isPrefixOf ([] : List Char)
  | c :: rest => needle.isPrefixOf (c :: rest) || hasSub needle rest

/-- The readiness predicate over the accumulated output buffer
(line 441). -/
def isReadyBuf (buf : List Char) : Bool :=
  hasSub readyPhrase1 buf || hasSub readyPhrase2 buf

/-- Local state of the readiness detector: the accumulated
`startupOutput` buffer and the `started` latch (lines 435-436). -/
structure DetState where
  startupOutput : List Char
  started : Bool
deriving Repr, DecidableEq

/-- Initial detector state: empty buffer, not started. -/
def initDet : DetState := { startupOutput := [], started := false }

/-- One invocation of `checkStarted` on a data chunk (lines 438-444,
truncated to the readiness decision): append the chunk to the buffer and
fire exactly when the latch is still clear and the buffer now contains a
readiness phrase.  The returned Bool is whether readiness fired (the body
that emits `server.started` and resolves the pending start ran). -/
def checkStarted (s : DetState) (chunk : List Char) : DetState × Bool :=
  let out := s.startupOutput ++ chunk
  if !s.started && isReadyBuf out then
    ({ startupOutput := out, started := true }, true)
  else
    ({ startupOutput := out, started := s.started }, false)

/-- Folding `checkStarted` over a sequence of stdout/stderr chunks
(both stream handlers call it, lines 494-508), counting how many times
readiness fired. -/
def runDetector (s : DetState) : List (List Char) → DetState × Nat
  | [] => (s, 0)
  | c :: cs =>
    let r := checkStarted s c
    let rest := runDetector r.1 cs
    (rest.1, (if r.2 then 1 else 0) + rest.2)

/-- Detector state after the first `i` chunks of a run from the initial
state. -/
def stateAfter (chunks : List (List Char)) (i : Nat) : DetState :=
  (runDetector initDet (chunks.take i)).1

/-- Whether readiness fires on chunk `i` of a run from the initial
state. -/
def fireAt (chunks : List (List Char)) (i : Nat) : Bool :=
  (checkStarted (stateAfter chunks i) (chunks.getD i [])).2

/-- Accumulated buffer contents after the first `i` chunks. -/
def bufTo (chunks : List (List Char)) (i : Nat) : List Char :=
  (chunks.take i).flatten

/-- C1: for every InstanceConfig, the compiler selects file mode (writes a
generated config file and passes it via `-c`) if and only if leaf-node mode
or MQTT is enabled; when both are disabled it builds a flat argument list
beginning with `-p <port>` and writes no config file.  The final three
conjuncts are Scenario A: `port 4222`, leaf and MQTT off, gives an argument
list containing `-p 4222`, no `-c` flag, and no file. -/
theorem config_mode_selection (cfg : InstanceConfig) (now : Nat) :
    ((compileInvocation cfg now).fileOut.isSome = needsConfigFile cfg)
    ∧ (needsConfigFile cfg = false →
        (compileInvocation cfg now).fileOut = none
          ∧ ∃ rest, (compileInvocation cfg now).args
              = "-p" :: toString (requestedPort cfg) :: rest)
    ∧ (compileInvocation { port := 4222 } 0).args.take 2 = ["-p", "4222"]
    ∧ "-c" ∉ (compileInvocation { port := 4222 } 0).args
    ∧ (compileInvocation { port := 4222 } 0).fileOut = none := by
  refine ⟨?_, ?_, by decide, by decide, by decide⟩
  · by_cases h : needsConfigFile cfg = true
    · simp [compileInvocation, h]
    · simp only [Bool.not_eq_true] at h
      simp [compileInvocation, h]
  · intro h
    refine ⟨by simp [compileInvocation, h], ?_⟩
    simp only [compileInvocation, h, Bool.false_eq_true, if_false]
    exact ⟨_, rfl⟩

/-- Witness for C1 at the argument-mode instance with all defaults. -/
theorem config_mode_selection_witness :
    (compileInvocation { } 0).fileOut = none
      ∧ ∃ rest, (compileInvocation { } 0).args
          = "-p" :: toString (requestedPort { }) :: rest :=
  (config_mode_selection { } 0).2.1 (by decide)

/-- C2: while a process handle is held (the Starting and Running phases),
a further `start` command is rejected by the guard at line 626: no spawn
effect occurs (neither the version probe nor the server spawn), and the
node configuration, runtime state and filesystem are all returned
unchanged, with a warning as the only effect.  The model keeps the handle
in a single `Option` field, so at most one non-null handle exists per
RuntimeState by construction. -/
theorem start_idempotent_guard (cfg : InstanceConfig) (s : RuntimeState)
    (fs : List String) (now : Nat) (pv : String) (pid : Nat)
    (h : s.natsServerProcess.isSome = true) :
    handleCommand Command.start cfg s fs now pv pid
      = { cfg := cfg, state := s, fs := fs,
          effects := [Effect.warnE "Server is already running"] }
    ∧ ∀ e ∈ (handleCommand Command.start cfg s fs now pv pid).effects,
        e.isSpawn = false := by
  refine ⟨by simp [handleCommand, h], ?_⟩
  intro e he
  simp [handleCommand, h] at he
  subst he
  rfl

/-- Witness for C2: a running state with pid 7 rejects a second start. -/
theorem start_idempotent_guard_witness :
    handleCommand Command.start { } { natsServerProcess := some 7 } [] 0 "v" 9
      = { cfg := { }, state := { natsServerProcess := some 7 }, fs := [],
          effects := [Effect.warnE "Server is already running"] } :=
  (start_idempotent_guard { } { natsServerProcess := some 7 } [] 0 "v" 9 rfl).1

/-- C3: on each of the four transitions the claim names — exit before
readiness, unexpected exit while running, startup timeout, and normal
stop — the generated config file path is removed from the filesystem, and
the deletion is attempted (an `unlinkFile` effect appears in the trace). -/
theorem config_file_cleanup (cfg : InstanceConfig) (s : RuntimeState)
    (fs : List String) (p : String) (h : s.configFile = some p) :
    (p ∉ (onProcessExit false s fs).2.1
      ∧ Effect.unlinkFile p ∈ (onProcessExit false s fs).2.2)
    ∧ (p ∉ (onProcessExit true s fs).2.1
      ∧ Effect.unlinkFile p ∈ (onProcessExit true s fs).2.2)
    ∧ (p ∉ (onStartupTimeout false s fs).2.1
      ∧ Effect.unlinkFile p ∈ (onStartupTimeout false s fs).2.2)
    ∧ (p ∉ (stopServer cfg s fs).fs
      ∧ Effect.unlinkFile p ∈ (stopServer cfg s fs).effects) := by
  cases hp : s.natsServerProcess <;>
    refine ⟨⟨?_, ?_⟩, ⟨?_, ?_⟩, ⟨?_, ?_⟩, ⟨?_, ?_⟩⟩ <;>
      simp [onProcessExit, onStartupTimeout, stopServer, unlink, h, hp,
        List.mem_filter]

/-- Witness for C3 at a concrete file-mode state. -/
theorem config_file_cleanup_witness :
    "/tmp/nats-embedded-1.conf"
        ∉ (stopServer { } { configFile := some "/tmp/nats-embedded-1.conf" }
            ["/tmp/nats-embedded-1.conf"]).fs
      ∧ Effect.unlinkFile "/tmp/nats-embedded-1.conf"
          ∈ (stopServer { } { configFile := some "/tmp/nats-embedded-1.conf" }
              ["/tmp/nats-embedded-1.conf"]).effects :=
  (config_file_cleanup { } { configFile := some "/tmp/nats-embedded-1.conf" }
    ["/tmp/nats-embedded-1.conf"] "/tmp/nats-embedded-1.conf" rfl).2.2.2

/-- C4: with leaf-node mode enabled and an empty remote URL, the start
attempt fails with the configuration error thrown at line 151 before any
process-spawn call (no probe, no server spawn) and before any file is
written; configuration, state and filesystem are untouched, so the empty
URL is never replaced by the `nats://localhost:4222` fallback of
line 256, which is only reachable from a non-empty URL. -/
theorem leaf_empty_url_rejected (cfg : InstanceConfig) (s : RuntimeState)
    (fs : List String) (now : Nat) (pv : String) (pid : Nat)
    (h1 : cfg.enableLeafNodeMode = true) (h2 : cfg.leafRemoteUrl = "") :
    startEmbeddedServer cfg s fs now pv pid
      = { cfg := cfg, state := s, fs := fs,
          effects := [Effect.errorE "Leaf Node mode requires a Remote NATS Server URL",
                      Effect.statusE "error" "missing remote URL"],
          err := some StartError.leafNoUrl }
    ∧ ∀ e ∈ (startEmbeddedServer cfg s fs now pv pid).effects,
        e.isSpawn = false := by
  have hc : (cfg.enableLeafNodeMode && cfg.leafRemoteUrl == "") = true := by
    simp [h1, h2]
  refine ⟨by simp [startEmbeddedServer, hc], ?_⟩
  intro e he
  simp [startEmbeddedServer, hc] at he
  rcases he with he | he <;> subst he <;> rfl

/-- Witness for C4 at the minimal leaf configuration with no URL. -/
theorem leaf_empty_url_rejected_witness :
    startEmbeddedServer { enableLeafNodeMode := true } { } [] 0 "v" 1
      = { cfg := { enableLeafNodeMode := true }, state := { }, fs := [],
          effects := [Effect.errorE "Leaf Node mode requires a Remote NATS Server URL",
                      Effect.statusE "error" "missing remote URL"],
          err := some StartError.leafNoUrl } :=
  (leaf_empty_url_rejected { enableLeafNodeMode := true } { } [] 0 "v" 1
    rfl rfl).1

/-- C5: under the `auto` policy, for every filesystem state the resolver
scans the fixed ordered candidate list and returns the first entry that is
the bare system command name or exists on disk; when no entry matches it
fails with the binary-not-found error carrying the remediation hint.
(Because the final candidate is the bare name, the failure branch is
present but unreachable.) -/
theorem auto_resolution_first_match (fs : List String) :
    resolveAuto fs
      = (match possibleBinPaths.find?
            (fun p => p == "nats-server" || fs.contains p) with
         | some p => Except.ok p
         | none => Except.error (StartError.binaryNotFound installHint)) := by
  have hscan : ∀ l : List String,
      autoScan fs l = l.find? (fun p => p == "nats-server" || fs.contains p) := by
    intro l
    induction l with
    | nil => rfl
    | cons a as ih =>
      simp only [autoScan]
      by_cases h : (a == "nats-server" || fs.contains a) = true
      · rw [if_pos h]
        exact (List.find?_cons_of_pos as h).symm
      · rw [if_neg h, ih]
        exact (List.find?_cons_of_neg as (by simpa using h)).symm
  rw [resolveAuto, hscan]

/-- C6 counterexample: issuing `restart` while the server is stopped (no
process handle) still runs the stop transition and emits a
`server.stopped` event, contradicting the claim that it would not. -/
theorem restart_while_stopped_cex :
    Effect.emitStopped none
      ∈ (handleCommand Command.restart { } { } [] 0 "v" 1).effects := by decide

/-- C6 amended: `restart` performs an unconditional stop — executing the
stop transition and emitting `server.stopped` even when the server is not
running — followed by a start delayed by 1 second. -/
theorem restart_unconditional_stop (cfg : InstanceConfig) (s : RuntimeState)
    (fs : List String) (now : Nat) (pv : String) (pid : Nat) :
    (∃ tail, (handleCommand Command.restart cfg s fs now pv pid).effects
        = (stopServer cfg s fs).effects ++ Effect.delayMs 1000 :: tail)
    ∧ Effect.emitStopped none ∈ (stopServer cfg s fs).effects := by
  refine ⟨⟨_, rfl⟩, ?_⟩
  cases h1 : s.configFile <;> cases h2 : s.natsServerProcess <;>
    simp [stopServer, h1, h2]

/-- C9: every `server.stopped` emission carries payload type
`node.serverType`, a field the node never assigns; the emitted type is
therefore undefined (`none`) and in particular never the claimed
`embedded` or `leaf`.  The repository changelog records this as the bug
"Fixed node.serverType undefined in stop payload". -/
theorem stopped_payload_type_undefined (cfg : InstanceConfig)
    (s : RuntimeState) (fs : List String) :
    Effect.emitStopped none ∈ (stopServer cfg s fs).effects
    ∧ ∀ t : String,
        Effect.emitStopped (some t) ∉ (stopServer cfg s fs).effects := by
  cases h1 : s.configFile <;> cases h2 : s.natsServerProcess <;>
    simp [stopServer, h1, h2]

/-- Helper: the `startServer` wrapper never alters the configuration
beyond what `startEmbeddedServer` did. -/
theorem startServer_cfg (cfg : InstanceConfig) (s : RuntimeState)
    (fs : List String) (now : Nat) (pv : String) (pid : Nat) :
    (startServer cfg s fs now pv pid).cfg
      = (startEmbeddedServer cfg s fs now pv pid).cfg := by
  unfold startServer
  cases h : (startEmbeddedServer cfg s fs now pv pid).err <;> simp [h]

/-- Helper: a start attempt either leaves the configuration unchanged or —
exactly when MQTT is enabled and the server name is empty — overwrites
`serverName` with the time-stamped auto-generated name (line 233). -/
theorem startEmbedded_cfg_cases (cfg : InstanceConfig) (s : RuntimeState)
    (fs : List String) (now : Nat) (pv : String) (pid : Nat) :
    (startEmbeddedServer cfg s fs now pv pid).cfg = cfg
    ∨ ((startEmbeddedServer cfg s fs now pv pid).cfg
         = { cfg with serverName := "nats-embedded-" ++ toString now }
       ∧ cfg.enableMqtt = true ∧ cfg.serverName = "") := by
  unfold startEmbeddedServer
  by_cases h0 : (cfg.enableLeafNodeMode && cfg.leafRemoteUrl == "") = true
  · rw [if_pos h0]; left; rfl
  · rw [if_neg h0]
    cases hr : resolveBinary cfg fs with
    | error e => left; rfl
    | ok bin =>
      by_cases hm : (cfg.enableMqtt && cfg.serverName == "") = true
      · right
        have h1 := (Bool.and_eq_true _ _).mp hm
        refine ⟨by simp [hm], h1.1, by simpa using h1.2⟩
      · left; simp [hm]

/-- Helper: the same case analysis lifted through the command dispatch. -/
theorem dispatch_cfg_cases (c : Command) (cfg : InstanceConfig)
    (s : RuntimeState) (fs : List String) (now : Nat) (pv : String) (pid : Nat) :
    (handleCommand c cfg s fs now pv pid).cfg = cfg
    ∨ ((handleCommand c cfg s fs now pv pid).cfg
         = { cfg with serverName := "nats-embedded-" ++ toString now }
       ∧ cfg.enableMqtt = true ∧ cfg.serverName = "") := by
  cases c with
  | start =>
    by_cases h : s.natsServerProcess.isSome = true
    · left; simp [handleCommand, h]
    · have : handleCommand Command.start cfg s fs now pv pid
          = startServer cfg s fs now pv pid := by simp [handleCommand, h]
      rw [this, startServer_cfg]
      exact startEmbedded_cfg_cases cfg s fs now pv pid
  | stop =>
    by_cases h : s.natsServerProcess.isSome = true <;> left <;>
      simp [handleCommand, h, stopServer]
  | restart =>
    have : (handleCommand Command.restart cfg s fs now pv pid).cfg
        = (startServer cfg (stopServer cfg s fs).state (stopServer cfg s fs).fs
            now pv pid).cfg := rfl
    rw [this, startServer_cfg]
    exact startEmbedded_cfg_cases cfg _ _ now pv pid
  | status => left; rfl
  | toggle =>
    by_cases h : s.natsServerProcess.isSome = true
    · left; simp [handleCommand, h, stopServer]
    · have : handleCommand Command.toggle cfg s fs now pv pid
          = startServer cfg s fs now pv pid := by simp [handleCommand, h]
      rw [this, startServer_cfg]
      exact startEmbedded_cfg_cases cfg s fs now pv pid

/-- C7 counterexample: the claim that no command execution modifies any
configuration field fails — a `start` with MQTT enabled and no server name
overwrites `serverName` (auto-generation at line 233), so the field
differs after the command. -/
theorem config_not_readonly_cex :
    (handleCommand Command.start { enableMqtt := true } { } [] 5 "v" 1).cfg.serverName
      ≠ ({ enableMqtt := true } : InstanceConfig).serverName := by decide

/-- C7 amended: every command leaves every InstanceConfig field unchanged
except `serverName`, and `serverName` itself changes only when a start is
performed with MQTT enabled and an empty server name, in which case it
receives the auto-generated value; whenever MQTT is off or a name was
supplied, `serverName` too is unchanged. -/
theorem config_frame_amended (c : Command) (cfg : InstanceConfig)
    (s : RuntimeState) (fs : List String) (now : Nat) (pv : String) (pid : Nat) :
    (handleCommand c cfg s fs now pv pid).cfg
      = { cfg with
          serverName := (handleCommand c cfg s fs now pv pid).cfg.serverName }
    ∧ ((cfg.enableMqtt = false ∨ cfg.serverName ≠ "") →
        (handleCommand c cfg s fs now pv pid).cfg.serverName
          = cfg.serverName) := by
  rcases dispatch_cfg_cases c cfg s fs now pv pid with h | ⟨h, hmq, hsn⟩
  · rw [h]
    exact ⟨rfl, fun _ => rfl⟩
  · rw [h]
    refine ⟨rfl, ?_⟩
    intro hor
    rcases hor with hor | hor
    · rw [hmq] at hor; exact absurd hor (by simp)
    · exact absurd hsn hor

/-- Witness for the amended C7 at a concrete MQTT-free instance. -/
theorem config_frame_amended_witness :
    (handleCommand Command.status { } { } [] 0 "v" 1).cfg.serverName
      = ({ } : InstanceConfig).serverName :=
  (config_frame_amended Command.status { } { } [] 0 "v" 1).2 (Or.inl rfl)

/-- C8: for every leaf-mode configuration (whose remote URL is necessarily
non-empty, C4), the serialized leaf-node remotes entry consists of exactly
the URL line, a user line only when a username is configured, and a
password line only when a password is configured; the null-valued
`credentials` entry produced by the conditional-spread idiom is dropped by
the serializer — null values emit no line at all — so no `credentials`
line (and no null field of any kind) appears in the file.  The last three
conjuncts spell out the concrete rendered text of the three possible field
lines. -/
theorem leaf_remotes_serialization (url user pass : String) (h : url ≠ "") :
    writeValue "leafnodes" 0 (leafnodesVal url user pass)
      = [spacesRep 0 ++ "leafnodes" ++ " \x7b",
         spacesRep 1 ++ "remotes" ++ ": [",
         spacesRep 1 ++ "  \x7b",
         spacesRep 3 ++ "url" ++ ": \"" ++ url ++ "\""]
        ++ (if user = "" then []
            else [spacesRep 3 ++ "user" ++ ": \"" ++ user ++ "\""])
        ++ (if pass = "" then []
            else [spacesRep 3 ++ "password" ++ ": \"" ++ pass ++ "\""])
        ++ [spacesRep 1 ++ "  \x7d", spacesRep 1 ++ "]", spacesRep 0 ++ "\x7d"]
    ∧ (∀ k i, writeValue k i JSVal.null = [])
    ∧ spacesRep 3 ++ "url" ++ ": \"" = "      url: \""
    ∧ spacesRep 3 ++ "user" ++ ": \"" = "      user: \""
    ∧ spacesRep 3 ++ "password" ++ ": \"" = "      password: \"" := by
  refine ⟨?_, fun k i => by simp [writeValue], by decide, by decide, by decide⟩
  by_cases hu : user = "" <;> by_cases hp : pass = "" <;>
    simp [leafnodesVal, leafRemoteObj, writeValue, writeFields, writeItems,
      hu, hp, h]

/-- Witness for C8: a remote with a username and no password renders as
the URL line and the user line, with no credentials line. -/
theorem leaf_remotes_serialization_witness :
    writeValue "leafnodes" 0 (leafnodesVal "nats://remote:4222" "alice" "")
      = ["leafnodes \x7b",
         "  remotes: [",
         "    \x7b",
         "      url: \"nats://remote:4222\"",
         "      user: \"alice\"",
         "    \x7d",
         "  ]",
         "\x7d"] :=
  ((leaf_remotes_serialization "nats://remote:4222" "alice" ""
    (by decide)).1).trans (by decide)


/-- Helper: a Boolean prefix of a list remains a prefix after appending. -/
theorem isPrefixOf_append_right (n h e : List Char)
    (hp : n.isPrefixOf h = true) : n.isPrefixOf (h ++ e) = true := by
  rw [List.isPrefixOf_iff_prefix] at hp ⊢
  exact hp.trans (List.prefix_append h e)

/-- Helper: the empty needle occurs in every haystack. -/
theorem hasSub_nil_needle (l : List Char) : hasSub [] l = true := by
  cases l <;> simp [hasSub, List.isPrefixOf]

/-- Helper: substring occurrence is preserved when the haystack grows on
the right — the monotonicity that makes the accumulated readiness buffer
latch. -/
theorem hasSub_append_right (n h e : List Char) (hs : hasSub n h = true) :
    hasSub n (h ++ e) = true := by
  induction h with
  | nil =>
    have hn : n = [] := by
      cases n with
      | nil => rfl
      | cons a as => simp [hasSub, List.isPrefixOf] at hs
    subst hn
    exact hasSub_nil_needle e
  | cons c r ih =>
    simp only [hasSub, Bool.or_eq_true] at hs
    simp only [List.cons_append, hasSub, Bool.or_eq_true]
    rcases hs with h1 | h1
    · left
      have := isPrefixOf_append_right n (c :: r) e h1
      simpa using this
    · right; exact ih h1

/-- Helper: readiness of the buffer is monotone under appending chunks. -/
theorem isReadyBuf_append_right (b e : List Char) (h : isReadyBuf b = true) :
    isReadyBuf (b ++ e) = true := by
  simp only [isReadyBuf, Bool.or_eq_true] at h ⊢
  rcases h with h | h
  · exact Or.inl (hasSub_append_right _ _ _ h)
  · exact Or.inr (hasSub_append_right _ _ _ h)

/-- Helper: every chunk is appended to the buffer, fired or not. -/
theorem checkStarted_buf (s : DetState) (c : List Char) :
    ((checkStarted s c).1).startupOutput = s.startupOutput ++ c := by
  by_cases hb : (!s.started && isReadyBuf (s.startupOutput ++ c)) = true <;>
    simp [checkStarted, hb]

/-- Helper: readiness fires exactly when the latch is clear and the grown
buffer is ready. -/
theorem checkStarted_fired_eq (s : DetState) (c : List Char) :
    (checkStarted s c).2 = (!s.started && isReadyBuf (s.startupOutput ++ c)) := by
  by_cases hb : (!s.started && isReadyBuf (s.startupOutput ++ c)) = true <;>
    simp [checkStarted, hb]

/-- Helper: after a run, the buffer is the initial buffer followed by the
concatenation of all chunks. -/
theorem runDetector_buf (cs : List (List Char)) (s : DetState) :
    ((runDetector s cs).1).startupOutput = s.startupOutput ++ cs.flatten := by
  induction cs generalizing s with
  | nil => simp [runDetector]
  | cons c cs ih =>
    simp only [runDetector]
    rw [ih, checkStarted_buf, List.flatten_cons, List.append_assoc]

/-- Helper: once the latch is set, a chunk is only appended and nothing
fires. -/
theorem checkStarted_of_started (s : DetState) (c : List Char)
    (h : s.started = true) :
    checkStarted s c
      = ({ startupOutput := s.startupOutput ++ c, started := true }, false) := by
  simp [checkStarted, h]

/-- Helper: from a latched state, a whole run keeps the latch and never
fires. -/
theorem runDetector_of_started (cs : List (List Char)) (s : DetState)
    (h : s.started = true) :
    (runDetector s cs).1.started = true ∧ (runDetector s cs).2 = 0 := by
  induction cs generalizing s with
  | nil => exact ⟨h, rfl⟩
  | cons c cs ih =>
    have h2 := ih { startupOutput := s.startupOutput ++ c, started := true } rfl
    simp only [runDetector, checkStarted_of_started s c h]
    exact ⟨h2.1, by simp [h2.2]⟩

/-- Helper: from an unlatched, not-yet-ready state, the final latch value
equals readiness of the final buffer. -/
theorem runDetector_started_iff (cs : List (List Char)) (s : DetState)
    (h1 : s.started = false) (h2 : isReadyBuf s.startupOutput = false) :
    (runDetector s cs).1.started
      = isReadyBuf (s.startupOutput ++ cs.flatten) := by
  induction cs generalizing s with
  | nil => simp [runDetector, h1, h2]
  | cons c cs ih =>
    by_cases hr : isReadyBuf (s.startupOutput ++ c) = true
    · have hc : checkStarted s c
          = ({ startupOutput := s.startupOutput ++ c, started := true }, true) := by
        simp [checkStarted, h1, hr]
      have hst := runDetector_of_started cs
        { startupOutput := s.startupOutput ++ c, started := true } rfl
      simp only [runDetector, hc]
      rw [hst.1, List.flatten_cons, ← List.append_assoc]
      exact (isReadyBuf_append_right _ _ hr).symm
    · have hr' : isReadyBuf (s.startupOutput ++ c) = false := by
        simpa using hr
      have hc : checkStarted s c
          = ({ startupOutput := s.startupOutput ++ c, started := false }, false) := by
        simp [checkStarted, h1, hr']
      simp only [runDetector, hc]
      rw [ih { startupOutput := s.startupOutput ++ c, started := false } rfl hr']
      simp [List.append_assoc]

/-- Helper: a firing step sets the latch. -/
theorem checkStarted_fired_started (s : DetState) (c : List Char)
    (h : (checkStarted s c).2 = true) : (checkStarted s c).1.started = true := by
  rw [checkStarted_fired_eq] at h
  simp [checkStarted, h]

/-- Helper: a non-firing step preserves the latch. -/
theorem checkStarted_not_fired_started (s : DetState) (c : List Char)
    (h : (checkStarted s c).2 = false) :
    (checkStarted s c).1.started = s.started := by
  rw [checkStarted_fired_eq] at h
  simp [checkStarted, h]

/-- Helper: from an unlatched state, a run fires at most once. -/
theorem runDetector_count_le_one (cs : List (List Char)) (s : DetState)
    (h : s.started = false) : (runDetector s cs).2 ≤ 1 := by
  induction cs generalizing s with
  | nil => simp [runDetector]
  | cons c cs ih =>
    by_cases hf : (checkStarted s c).2 = true
    · have hs' := checkStarted_fired_started s c hf
      have h0 := (runDetector_of_started cs _ hs').2
      simp [runDetector, hf, h0]
    · have hb : (checkStarted s c).2 = false := by simpa using hf
      have hs' := checkStarted_not_fired_started s c hb
      simp only [runDetector, hb]
      simpa using ih _ (hs'.trans h)

/-- Helper: the buffer after `i + 1` chunks is the buffer after `i`
chunks extended by chunk `i`. -/
theorem bufTo_succ (l : List (List Char)) (i : Nat) (h : i < l.length) :
    bufTo l (i + 1) = bufTo l i ++ l.getD i [] := by
  induction l generalizing i with
  | nil => simp at h
  | cons a as ih =>
    cases i with
    | zero => simp [bufTo, List.getD]
    | succ j =>
      have h' : j < as.length := by simpa using h
      simp only [bufTo, List.take_succ_cons, List.flatten_cons] at ih ⊢
      rw [ih j h', List.getD_cons_succ, List.append_assoc]

/-- Helper: readiness fires on chunk `i` exactly when the buffer becomes
ready at `i + 1` not having been ready at `i`. -/
theorem fireAt_eq (chunks : List (List Char)) (i : Nat)
    (h : i < chunks.length) :
    fireAt chunks i
      = (!isReadyBuf (bufTo chunks i) && isReadyBuf (bufTo chunks (i + 1))) := by
  have hbuf : (stateAfter chunks i).startupOutput = bufTo chunks i := by
    unfold stateAfter bufTo
    rw [runDetector_buf]
    rfl
  have hst : (stateAfter chunks i).started = isReadyBuf (bufTo chunks i) := by
    unfold stateAfter
    rw [runDetector_started_iff (chunks.take i) initDet rfl (by decide)]
    rfl
  unfold fireAt
  rw [checkStarted_fired_eq, hbuf, hst, ← bufTo_succ chunks i h]

/-- C10: over any sequence of stdout/stderr chunks, the readiness detector
fires at most once; once the `started` latch is set no later chunk can
fire (so the `server.started` emission and the start resolution inside the
firing branch run at most once per start); and readiness fires on chunk
`i` exactly when the accumulated buffer first contains one of the two
readiness phrases there — the buffer is ready after chunk `i` and was not
ready before it (readiness of the growing buffer is monotone, so
non-readiness at `i` means non-readiness at every earlier point). -/
theorem readiness_idempotent (chunks : List (List Char)) :
    (runDetector initDet chunks).2 ≤ 1
    ∧ (∀ s : DetState, s.started = true →
        ∀ cs : List (List Char), (runDetector s cs).2 = 0)
    ∧ (∀ i : Nat, i < chunks.length →
        (fireAt chunks i = true ↔
          (isReadyBuf (bufTo chunks (i + 1)) = true
            ∧ isReadyBuf (bufTo chunks i) = false))) := by
  refine ⟨runDetector_count_le_one chunks initDet rfl,
    fun s hs cs => (runDetector_of_started cs s hs).2, ?_⟩
  intro i hi
  rw [fireAt_eq chunks i hi]
  constructor
  · intro hb
    have hb2 := (Bool.and_eq_true _ _).mp hb
    exact ⟨hb2.2, by simpa using hb2.1⟩
  · intro hb
    simp [hb.1, hb.2]

/-- Witness for C10: a single chunk holding the first readiness phrase
fires, and a latched detector never fires. -/
theorem readiness_idempotent_witness :
    fireAt [readyPhrase1] 0 = true
    ∧ (runDetector { startupOutput := [], started := true } [readyPhrase1]).2 = 0 := by
  constructor
  · exact ((readiness_idempotent [readyPhrase1]).2.2 0 (by decide)).mpr
      ⟨by decide, by decide⟩
  · exact (readiness_idempotent [readyPhrase1]).2.1
      { startupOutput := [], started := true } rfl [readyPhrase1]

end NatsSuite
